import Mathlib

/-!
Verification of the clothing-shop backend (`main.py`, `schemas.py`).

The HTTP handlers of `main.py` are embedded shallowly: each handler becomes a
Lean function over an explicit `Store` state (the MongoDB collections), raised
`HTTPException`s become `Except.error` values carrying status code and detail,
and Python floats are modelled as exact rationals (`ℚ`), with `round(x, 2)`
modelled as rounding `x * 100` to the nearest integer.

The document-store adapter (`database.py`, imported by `main.py` as
`create_document` / `get_documents`) is not among the sources; those two
operations are modelled from the spec's collaborator interface
(`create(collection, document) -> id`, `find(collection, filter, limit)`),
as marked on their definitions.
-/

namespace Shop

/-- Python `round(x, 2)` on the rational model: round `x * 100` to the nearest
integer and divide back.  (CPython breaks ties to even; Mathlib's `round`
breaks ties upward.  No statement in this development depends on the tie rule:
the same `round2` is used both for the embedded code and for the properties
stated about it.) -/
def round2 (q : ℚ) : ℚ := ((round (q * 100) : ℤ) : ℚ) / 100

/-- ASCII lower-casing of one character, as `re.IGNORECASE` matching of the
escaped pattern behaves on ASCII text (codepoints 65-90 shift to 97-122). -/
def lowerChar (c : Char) : Char :=
  if 65 ≤ c.toNat ∧ c.toNat ≤ 90 then Char.ofNat (c.toNat + 32) else c

/-- Lower-case a character list. -/
def lowerList (l : List Char) : List Char := l.map lowerChar

/-- `leadsList p l` : `p` is an initial segment of `l`. -/
def leadsList : List Char → List Char → Bool
  | [], _ => true
  | _ :: _, [] => false
  | a :: as, b :: bs => a == b && leadsList as bs

/-- `occursIn p l` : `p` occurs contiguously somewhere inside `l`. -/
def occursIn (pat : List Char) : List Char → Bool
  | [] => leadsList pat []
  | c :: t => leadsList pat (c :: t) || occursIn pat t

/-- Case-insensitive substring test: the semantics of the Mongo filter
`{field: re.compile(re.escape(q), re.IGNORECASE)}` built in `list_products`
(the escaped pattern matches literally, anywhere in the field). -/
def ciContains (hay pat : String) : Bool :=
  occursIn (lowerList pat.data) (lowerList hay.data)

/-- Lexicographic order on character lists by codepoint: the order Python's
`list.sort()` uses on `str` values. -/
def lexLe : List Char → List Char → Bool
  | [], _ => true
  | _ :: _, [] => false
  | a :: as, b :: bs =>
    if a.toNat < b.toNat then true
    else if a.toNat = b.toNat then lexLe as bs
    else false

/-- The order `cats.sort()` sorts by, as a relation on `String`. -/
def strLeP (a b : String) : Prop := lexLe a.data b.data = true

instance : DecidableRel strLeP :=
  fun a b => inferInstanceAs (Decidable (lexLe a.data b.data = true))

/-- A hexadecimal digit, as accepted by `bson.ObjectId`. -/
def isHexDigit (c : Char) : Bool :=
  c.isDigit || (decide (97 ≤ c.toNat) && decide (c.toNat ≤ 102)) ||
    (decide (65 ≤ c.toNat) && decide (c.toNat ≤ 70))

/-- Numeric value of a hexadecimal digit. -/
def hexVal (c : Char) : Nat :=
  if c.isDigit then c.toNat - 48
  else if 97 ≤ c.toNat then c.toNat - 87
  else c.toNat - 55

/-- `bson.ObjectId(s)` on a string argument: succeeds exactly on 24-character
hexadecimal strings, and two such strings denote the same ObjectId iff they
have the same numeric value (hex parsing is case-insensitive).  The abstract
store-native identifier is that numeric value. -/
def parseObjectId (s : String) : Option Nat :=
  if s.length == 24 && s.data.all isHexDigit then
    some (s.data.foldl (fun a c => a * 16 + hexVal c) 0)
  else none

/-- Whether an `Except` value is a success. -/
def exceptIsOk {ε α : Type} : Except ε α → Bool
  | Except.ok _ => true
  | Except.error _ => false

instance {ε α : Type} [DecidableEq ε] [DecidableEq α] :
    DecidableEq (Except ε α) := fun x y =>
  match x, y with
  | Except.ok a, Except.ok b =>
    if h : a = b then isTrue (by rw [h]) else isFalse (by simp [h])
  | Except.ok _, Except.error _ => isFalse (by simp)
  | Except.error _, Except.ok _ => isFalse (by simp)
  | Except.error e, Except.error f =>
    if h : e = f then isTrue (by rw [h]) else isFalse (by simp [h])

/-! ## Data model

Raw MongoDB documents, as the handlers read them.  Every document reachable
through this API carries the fields of its `schemas.py` model (the `create_*`
endpoints validate payloads against those models before inserting), so the
document types below carry exactly the schema fields, with two deliberate
loosenings that the handlers are sensitive to:

* a product document's `category` may hold a non-string value
  (`list_categories` defensively drops non-strings), and
* a product document may carry an extra custom string field `id` in addition
  to its native `_id` (`get_product` falls back to looking it up).

Field-level numeric range validation (`ge`/`le` bounds) is not re-modelled on
reads; all documents created through this API satisfy it. -/

/-- A loosely-typed stored field value (enough of BSON for the claims). -/
inductive BVal where
  | str : String → BVal
  | num : ℚ → BVal
  | null : BVal
deriving DecidableEq

/-- A document of the `product` collection.  `oid` is the numeric value of the
native `_id`; `id` is the optional custom string identifier field. -/
structure ProductDoc where
  oid : Nat
  id : Option String
  title : String
  description : Option String
  price : ℚ
  category : BVal
  in_stock : Bool
  sizes : List String
  colors : List String
  image_url : Option String
  rating : Option ℚ
  badge : Option String
deriving DecidableEq

/-- `ProductOut` (`main.py`): the product response model, native identifier
attached as `id`. -/
structure ProductOut where
  id : Option Nat
  title : String
  description : Option String
  price : ℚ
  category : String
  in_stock : Bool
  sizes : List String
  colors : List String
  image_url : Option String
  rating : Option ℚ
  badge : Option String
deriving DecidableEq

/-- A document of the `review` collection.  `rating` is `none` when the field
is absent or null (possible for externally inserted documents; the rating
aggregation skips such entries). -/
structure ReviewDoc where
  rid : Nat
  product_id : String
  rating : Option ℤ
  comment : Option String
  author : Option String
  email : Option String
deriving DecidableEq

/-- `schemas.Review` — a validated review payload (`rating` is required). -/
structure Review where
  product_id : String
  rating : ℤ
  comment : Option String
  author : Option String
  email : Option String
deriving DecidableEq

/-- Pydantic validation of a `Review` payload: `rating` is constrained to
`ge=1, le=5`. -/
def Review.valid (r : Review) : Prop := 1 ≤ r.rating ∧ r.rating ≤ 5

/-- `schemas.Wishlist` — a wishlist payload (also the shape of a stored
wishlist document minus its `_id`). -/
structure Wishlist where
  email : String
  product_id : String
deriving DecidableEq

/-- A document of the `wishlist` collection. -/
structure WishlistDoc where
  wid : Nat
  email : String
  product_id : String
deriving DecidableEq

/-- `schemas.OrderItem`. -/
structure OrderItem where
  product_id : String
  title : String
  price : ℚ
  quantity : ℤ
  size : Option String
  color : Option String
  image_url : Option String
deriving DecidableEq

/-- `schemas.Order` — an order payload.  `shipping` is declared
`float = Field(0.0, ge=0)`: an absent field is defaulted to `0.0` by the
schema, so the handler's `payload.shipping if payload.shipping is not None
else 0.0` amounts to `shipping.getD 0` here, where `none` models the field
being absent from the request body. -/
structure Order where
  email : String
  items : List OrderItem
  subtotal : ℚ
  shipping : Option ℚ
  total : ℚ
  note : Option String
deriving DecidableEq

/-- Pydantic validation of an `Order` payload: per-item `price ge=0` and
`quantity ge=1`, and `subtotal ge=0`, `shipping ge=0`, `total ge=0`.  The
`items` field is required but carries no minimum-length constraint: an empty
list validates. -/
def Order.valid (p : Order) : Prop :=
  (∀ i ∈ p.items, 0 ≤ i.price ∧ 1 ≤ i.quantity) ∧
    0 ≤ p.subtotal ∧ 0 ≤ p.shipping.getD 0 ∧ 0 ≤ p.total

/-- A document of the `order` collection, as `create_order` persists it. -/
structure OrderDoc where
  oid : Nat
  email : String
  items : List OrderItem
  subtotal : ℚ
  shipping : ℚ
  total : ℚ
  note : Option String
deriving DecidableEq

/-- A raised `HTTPException`: status code and detail message.  Detail texts of
500 responses (`str(e)` of the underlying error) are abbreviated to fixed
stand-ins; no statement below inspects them. -/
structure HTTPError where
  status : Nat
  detail : String
deriving DecidableEq

/-- The mutable state: the four collections, the next fresh store-generated
identifier, and one failure flag.  `productReadFail = true` models `find_one`
on the product collection raising (the store unavailable for, or failing, that
query); reads of the other collections and inserts are independent network
operations and are modelled as succeeding. -/
structure Store where
  products : List ProductDoc
  reviews : List ReviewDoc
  wishlist : List WishlistDoc
  orders : List OrderDoc
  nextId : Nat
  productReadFail : Bool
deriving DecidableEq

/-! ## Document-store adapter (not among the sources) -/

/-- Modelled from the spec: the adapter's
`find(collection, filter, limit) -> sequence of documents` (`get_documents` of
the missing `database.py`) — the documents matching the filter, in
store-default order, capped at `limit`. -/
def get_documents {α : Type} (docs : List α) (filt : α → Bool) (limit : Nat) :
    List α :=
  (docs.filter filt).take limit

/-- Modelled from the spec: `create(collection, document) -> id`
(`create_document` of the missing `database.py`) on the `review` collection —
persist the document, return the fresh store-generated identifier. -/
def create_document_review (s : Store) (r : Review) : Nat × Store :=
  (s.nextId,
   { s with
     reviews := s.reviews ++
       [{ rid := s.nextId, product_id := r.product_id, rating := some r.rating,
          comment := r.comment, author := r.author, email := r.email }],
     nextId := s.nextId + 1 })

/-- Modelled from the spec: `create(collection, document) -> id` on the
`wishlist` collection. -/
def create_document_wishlist (s : Store) (w : Wishlist) : Nat × Store :=
  (s.nextId,
   { s with
     wishlist := s.wishlist ++
       [{ wid := s.nextId, email := w.email, product_id := w.product_id }],
     nextId := s.nextId + 1 })

/-- Modelled from the spec: `create(collection, document) -> id` on the
`order` collection. -/
def create_document_order (s : Store) (d : OrderDoc) : Nat × Store :=
  let nd : OrderDoc := { d with oid := s.nextId }
  (s.nextId, { s with orders := s.orders ++ [nd], nextId := s.nextId + 1 })

/-! ## Handlers -/

/-- `ProductOut(id=d_id, **d)` after `d.pop("_id")` (`main.py` response
shaping, used by `list_products` and `get_product`).  If the raw document
carries a custom `id` field, the call receives the keyword `id` twice and
raises `TypeError`; if its `category` is not a string, pydantic validation
raises.  Either error is caught by the handler's broad `except` and surfaces
as a 500. -/
def toProductOut (p : ProductDoc) : Except Unit ProductOut :=
  match p.id, p.category with
  | none, BVal.str c =>
    Except.ok { id := some p.oid, title := p.title, description := p.description,
                price := p.price, category := c, in_stock := p.in_stock,
                sizes := p.sizes, colors := p.colors, image_url := p.image_url,
                rating := p.rating, badge := p.badge }
  | _, _ => Except.error ()

/-- The response-building loop of `list_products`: shape each fetched document
in order, aborting at the first document that fails to shape. -/
def buildOuts : List ProductDoc → Except Unit (List ProductOut)
  | [] => Except.ok []
  | d :: ds =>
    match toProductOut d with
    | Except.error e => Except.error e
    | Except.ok o =>
      match buildOuts ds with
      | Except.error e => Except.error e
      | Except.ok os => Except.ok (o :: os)

/-- Truthiness of an optional query parameter: Python's `if category:` is
false both for `None` and for the empty string. -/
def truthy : Option String → Bool
  | none => false
  | some s => !(s == "")

/-- The Mongo filter `list_products` builds, as a predicate on product
documents.  Each clause is added only when the parameter is truthy:
`category` exact equality, `size`/`color` membership (`$in`), and `q` an
`$or` of case-insensitive regex matches on `title` and `description` (a
document without a `description` fails that subclause). -/
def productMatches (category size color q : Option String) (p : ProductDoc) :
    Bool :=
  (if truthy category then p.category == BVal.str (category.getD "") else true) &&
  (if truthy size then p.sizes.contains (size.getD "") else true) &&
  (if truthy color then p.colors.contains (color.getD "") else true) &&
  (if truthy q then
    (ciContains p.title (q.getD "") ||
      (match p.description with
       | some d => ciContains d (q.getD "")
       | none => false))
   else true)

/-- `GET /api/products` (`list_products`, `main.py` 73-100): build the filter,
fetch up to 100 matching documents, shape each.  A store read failure, or a
shaping failure, is caught by the broad `except` and returned as a 500. -/
def list_products (s : Store) (category size color q : Option String) :
    Except HTTPError (List ProductOut) :=
  if s.productReadFail then Except.error { status := 500, detail := "store error" }
  else
    match buildOuts (get_documents s.products (productMatches category size color q) 100) with
    | Except.ok outs => Except.ok outs
    | Except.error _ => Except.error { status := 500, detail := "shape error" }

/-- `GET /api/products/{product_id}` (`get_product`, `main.py` 103-123):
try `ObjectId(product_id)`; on success look up by native `_id` (and, should
that read raise, the inner `except` falls through to the custom-id lookup,
which raises likewise — hence the flat 500 on `productReadFail`); on parse
failure look up by the custom `id` field.  No document → 404 `HTTPException`,
re-raised as-is; a found document is shaped, a shaping failure becoming a
500. -/
def get_product (s : Store) (product_id : String) : Except HTTPError ProductOut :=
  if s.productReadFail then Except.error { status := 500, detail := "store error" }
  else
    match
      (match parseObjectId product_id with
       | some v => s.products.find? (fun p => p.oid == v)
       | none => s.products.find? (fun p => p.id == some product_id)) with
    | none => Except.error { status := 404, detail := "Product not found" }
    | some p =>
      match toProductOut p with
      | Except.ok out => Except.ok out
      | Except.error _ => Except.error { status := 500, detail := "shape error" }

/-- The `isinstance(c, str)` projection of `list_categories`: a stored value
kept iff it is a string. -/
def strOfBVal : BVal → Option String
  | BVal.str c => some c
  | _ => none

/-- `GET /api/categories` (`list_categories`, `main.py` 126-136):
`db["product"].distinct("category")`, keep the values that are strings
(`isinstance(c, str)` — the empty string is a string and is kept), sort
ascending. -/
def list_categories (s : Store) : Except HTTPError (List String) :=
  if s.productReadFail then Except.error { status := 500, detail := "store error" }
  else
    Except.ok
      ((((s.products.map (fun p => p.category)).dedup).filterMap
          strOfBVal).insertionSort strLeP)

/-- `POST /api/orders` (`create_order`, `main.py` 148-162): recompute
`subtotal = Σ item.price * item.quantity`, default `shipping` to 0, set
`total = subtotal + shipping`, and persist the dumped payload with those three
fields overwritten by their 2-decimal roundings.  The client-submitted
`subtotal` and `total` are discarded. -/
def create_order (s : Store) (payload : Order) : Except HTTPError Nat × Store :=
  let subtotal := (payload.items.map (fun i => i.price * (i.quantity : ℚ))).sum
  let shipping := payload.shipping.getD 0
  let total := subtotal + shipping
  let r := create_document_order s
    { oid := 0, email := payload.email, items := payload.items,
      subtotal := round2 subtotal, shipping := round2 shipping,
      total := round2 total, note := payload.note }
  (Except.ok r.1, r.2)

/-- `POST /api/reviews` (`create_review`, `main.py` 170-184): call
`get_product` to ensure the product exists; the inner
`except HTTPException as he: if he.status_code == 404: raise` re-raises a 404
unchanged but swallows any other `HTTPException` (in particular the 500 a
failed lookup surfaces as), after which control continues to the insert.  The
outer handler re-raises `HTTPException`s and maps anything else to 500. -/
def create_review (s : Store) (payload : Review) : Except HTTPError Nat × Store :=
  match get_product s payload.product_id with
  | Except.error e =>
    if e.status == 404 then (Except.error e, s)
    else
      let r := create_document_review s payload
      (Except.ok r.1, r.2)
  | Except.ok _ =>
    let r := create_document_review s payload
    (Except.ok r.1, r.2)

/-- `GET /api/products/{product_id}/rating` (`get_product_rating`, `main.py`
199-208): fetch up to 1000 reviews of the product, keep the `rating` values
that are present (`d.get("rating") is not None`), and return the product id,
the mean rounded to 2 decimals (0 when no rating was counted), and the
count. -/
def get_product_rating (s : Store) (product_id : String) :
    Except HTTPError (String × ℚ × Nat) :=
  let docs := get_documents s.reviews (fun d => d.product_id == product_id) 1000
  let ratings := docs.filterMap (fun d => d.rating)
  let count := ratings.length
  let avg := if count = 0 then 0 else round2 (((ratings.sum : ℤ) : ℚ) / (count : ℚ))
  Except.ok (product_id, avg, count)

/-- The duplicate filter of the wishlist endpoints:
`{"email": email, "product_id": product_id}`. -/
def wishlistKey (email product_id : String) (w : WishlistDoc) : Bool :=
  w.email == email && w.product_id == product_id

/-- Lines 257-262 of `main.py` (`add_to_wishlist` after the existence check):
return the `_id` of an existing entry with the same email and product, else
insert a fresh entry. -/
def wishlistInsertStep (s : Store) (payload : Wishlist) :
    Except HTTPError Nat × Store :=
  match s.wishlist.find? (wishlistKey payload.email payload.product_id) with
  | some w => (Except.ok w.wid, s)
  | none =>
    let r := create_document_wishlist s payload
    (Except.ok r.1, r.2)

/-- `POST /api/wishlist` (`add_to_wishlist`, `main.py` 248-266): the same
existence-check block as `create_review` (404 re-raised, any other
`HTTPException` swallowed and control continuing), then the duplicate check
and insert. -/
def add_to_wishlist (s : Store) (payload : Wishlist) :
    Except HTTPError Nat × Store :=
  match get_product s payload.product_id with
  | Except.error e =>
    if e.status == 404 then (Except.error e, s)
    else wishlistInsertStep s payload
  | Except.ok _ => wishlistInsertStep s payload

/-- `DELETE /api/wishlist` (`remove_from_wishlist`, `main.py` 269-277):
`delete_one` with the email/product filter removes the first matching
document, if any (pymongo's documented `delete_one` semantics, the spec's
stated reference behavior), and the handler returns the resulting
`deleted_count`. -/
def remove_from_wishlist (s : Store) (email product_id : String) :
    Except HTTPError Nat × Store :=
  (Except.ok (if s.wishlist.any (wishlistKey email product_id) then 1 else 0),
   { s with wishlist := s.wishlist.eraseP (wishlistKey email product_id) })

/-! ## Claim-side predicates -/

/-- The per-product filter semantics as claim C2 states them, restricted to
non-empty provided parameters: exact category equality, size and color
membership, and case-insensitive substring `q`-match on title or
description. -/
def matchesParams (category size color q : Option String) (po : ProductOut) :
    Prop :=
  (∀ c, category = some c → c ≠ "" → po.category = c) ∧
  (∀ sz, size = some sz → sz ≠ "" → sz ∈ po.sizes) ∧
  (∀ co, color = some co → co ≠ "" → co ∈ po.colors) ∧
  (∀ qs, q = some qs → qs ≠ "" →
    (ciContains po.title qs = true ∨
      ∃ d, po.description = some d ∧ ciContains d qs = true))

/-- Claim C6's description of the counted ratings: among the (at most 1000)
fetched reviews of the product, the rating values that are present. -/
def countedRatings (s : Store) (product_id : String) : List ℤ :=
  ((s.reviews.filter (fun d => d.product_id == product_id)).take 1000).filterMap
    (fun d => d.rating)

/-! ## Concrete fixtures used by witnesses and counterexamples -/

/-- A well-formed product document (native id 5, no custom `id` field). -/
def fxShirt : ProductDoc :=
  { oid := 5, id := none, title := "Blue Shirt",
    description := some "Soft cotton tee", price := 10,
    category := BVal.str "Tops", in_stock := true, sizes := ["S", "M"],
    colors := ["black"], image_url := none, rating := none, badge := none }

/-- The response shape of `fxShirt`. -/
def fxShirtOut : ProductOut :=
  { id := some 5, title := "Blue Shirt", description := some "Soft cotton tee",
    price := 10, category := "Tops", in_stock := true, sizes := ["S", "M"],
    colors := ["black"], image_url := none, rating := none, badge := none }

/-- A 24-hex-digit identifier string whose numeric value is 5 — it parses as
an ObjectId and matches `fxShirt`. -/
def fxPid : String := "000000000000000000000005"

/-- A store holding just `fxShirt`, reads working. -/
def fxStore : Store :=
  { products := [fxShirt], reviews := [], wishlist := [], orders := [],
    nextId := 9, productReadFail := false }

/-- An entirely empty store, reads working. -/
def fxEmptyStore : Store :=
  { products := [], reviews := [], wishlist := [], orders := [],
    nextId := 0, productReadFail := false }

/-- An empty store whose product-collection reads raise. -/
def fxFailStore : Store :=
  { products := [], reviews := [], wishlist := [], orders := [],
    nextId := 0, productReadFail := true }

/-- A store with a single wishlist entry. -/
def fxWishStore : Store :=
  { products := [], reviews := [],
    wishlist := [{ wid := 3, email := "u@x.com", product_id := "p9" }],
    orders := [], nextId := 4, productReadFail := false }

/-- A store whose products carry an empty-string, a normal, and a non-string
category value. -/
def fxCatStore : Store :=
  { products :=
      [{ fxShirt with oid := 1, category := BVal.str "" },
       { fxShirt with oid := 2, category := BVal.str "Tops" },
       { fxShirt with oid := 3, category := BVal.num 3 }],
    reviews := [], wishlist := [], orders := [], nextId := 0,
    productReadFail := false }

/-- A store whose only product has native id 3 and custom id string "abc". -/
def fxCustomStore : Store :=
  { products := [{ fxShirt with oid := 3, id := some "abc" }],
    reviews := [], wishlist := [], orders := [], nextId := 0,
    productReadFail := false }

/-- A 24-hex-digit identifier string that parses as an ObjectId (of a large
numeric value). -/
def fxTrapPid : String := "aaaaaaaaaaaaaaaaaaaaaaaa"

/-- A store whose only product has native id 3 but carries `fxTrapPid` as its
custom id string: a lookup of `fxTrapPid` parses it natively and never falls
back to the custom field. -/
def fxTrapStore : Store :=
  { products := [{ fxShirt with oid := 3, id := some fxTrapPid }],
    reviews := [], wishlist := [], orders := [], nextId := 0,
    productReadFail := false }

/-- A review payload naming product "p1". -/
def fxReview : Review :=
  { product_id := "p1", rating := 5, comment := none, author := none,
    email := none }

/-- A review payload whose product id matches nothing anywhere. -/
def fxReviewMissing : Review :=
  { product_id := "nope", rating := 4, comment := none, author := none,
    email := none }

/-- A wishlist payload for the existing product `fxPid`. -/
def fxWl : Wishlist := { email := "u@x.com", product_id := fxPid }

/-- A wishlist payload whose product id matches nothing anywhere. -/
def fxWlMissing : Wishlist := { email := "u@x.com", product_id := "nope" }

/-- The spec's example order payload: items 10×2 and 5×1, shipping 3, with
tampered client totals. -/
def fxOrder : Order :=
  { email := "a@b.c",
    items :=
      [{ product_id := "p1", title := "Blue Shirt", price := 10, quantity := 2,
         size := none, color := none, image_url := none },
       { product_id := "p2", title := "Cap", price := 5, quantity := 1,
         size := none, color := none, image_url := none }],
    subtotal := 999, shipping := some 3, total := 1, note := none }

/-- An order payload with an empty items list. -/
def fxOrderEmpty : Order :=
  { email := "a@b.c", items := [], subtotal := 7, shipping := some (49/10),
    total := 0, note := some "hi" }

/-! ## Helper lemmas -/

theorem lexLe_total : ∀ a b, lexLe a b = true ∨ lexLe b a = true
  | [], _ => Or.inl rfl
  | _ :: _, [] => Or.inr rfl
  | x :: xs, y :: ys => by
    unfold lexLe
    rcases Nat.lt_trichotomy x.toNat y.toNat with hlt | heq | hgt
    · exact Or.inl (by simp [hlt])
    · rcases lexLe_total xs ys with h | h
      · exact Or.inl (by simp [heq, h])
      · exact Or.inr (by simp [heq.symm, h])
    · exact Or.inr (by simp [hgt])

theorem lexLe_trans :
    ∀ a b c, lexLe a b = true → lexLe b c = true → lexLe a c = true
  | [], _, _, _, _ => rfl
  | _ :: _, [], _, h1, _ => absurd h1 (by simp [lexLe])
  | _ :: _, _ :: _, [], _, h2 => absurd h2 (by simp [lexLe])
  | x :: xs, y :: ys, z :: zs, h1, h2 => by
    unfold lexLe at h1 h2 ⊢
    by_cases hxy : x.toNat < y.toNat
    · rw [if_pos hxy] at h1
      by_cases hyz : y.toNat < z.toNat
      · rw [if_pos (by omega : x.toNat < z.toNat)]
      · rw [if_neg hyz] at h2
        by_cases hyz2 : y.toNat = z.toNat
        · rw [if_pos (by omega : x.toNat < z.toNat)]
        · rw [if_neg hyz2] at h2
          exact absurd h2 (by simp)
    · rw [if_neg hxy] at h1
      by_cases hxy2 : x.toNat = y.toNat
      · rw [if_pos hxy2] at h1
        by_cases hyz : y.toNat < z.toNat
        · rw [if_pos (by omega : x.toNat < z.toNat)]
        · rw [if_neg hyz] at h2
          by_cases hyz2 : y.toNat = z.toNat
          · rw [if_pos hyz2] at h2
            rw [if_neg (by omega : ¬x.toNat < z.toNat),
              if_pos (by omega : x.toNat = z.toNat)]
            exact lexLe_trans xs ys zs h1 h2
          · rw [if_neg hyz2] at h2
            exact absurd h2 (by simp)
      · rw [if_neg hxy2] at h1
        exact absurd h1 (by simp)

theorem toProductOut_ok_fields {p : ProductDoc} {po : ProductOut}
    (h : toProductOut p = Except.ok po) :
    p.id = none ∧ p.category = BVal.str po.category ∧ po.title = p.title ∧
      po.description = p.description ∧ po.sizes = p.sizes ∧
      po.colors = p.colors := by
  unfold toProductOut at h
  match hid : p.id, hcat : p.category with
  | none, BVal.str c =>
    rw [hid, hcat] at h
    cases h
    exact ⟨rfl, by simp, rfl, rfl, rfl, rfl⟩
  | none, BVal.num _ => rw [hid, hcat] at h; cases h
  | none, BVal.null => rw [hid, hcat] at h; cases h
  | some _, _ => rw [hid] at h; cases h

theorem buildOuts_ok_length :
    ∀ {l : List ProductDoc} {os : List ProductOut},
      buildOuts l = Except.ok os → os.length = l.length
  | [], os, h => by cases h; rfl
  | d :: ds, os, h => by
    unfold buildOuts at h
    match ho : toProductOut d with
    | Except.error e => rw [ho] at h; cases h
    | Except.ok o =>
      rw [ho] at h
      match hb : buildOuts ds with
      | Except.error e => rw [hb] at h; cases h
      | Except.ok os' =>
        rw [hb] at h
        cases h
        simp [buildOuts_ok_length hb]

theorem buildOuts_ok_mem :
    ∀ {l : List ProductDoc} {os : List ProductOut},
      buildOuts l = Except.ok os → ∀ po ∈ os, ∃ p ∈ l, toProductOut p = Except.ok po
  | [], os, h => by cases h; intro po hpo; cases hpo
  | d :: ds, os, h => by
    unfold buildOuts at h
    match ho : toProductOut d with
    | Except.error e => rw [ho] at h; cases h
    | Except.ok o =>
      rw [ho] at h
      match hb : buildOuts ds with
      | Except.error e => rw [hb] at h; cases h
      | Except.ok os' =>
        rw [hb] at h
        cases h
        intro po hpo
        rcases List.mem_cons.mp hpo with hpo | hpo
        · exact ⟨d, List.mem_cons_self d ds, hpo ▸ ho⟩
        · rcases buildOuts_ok_mem hb po hpo with ⟨p, hpl, hp⟩
          exact ⟨p, List.mem_cons_of_mem d hpl, hp⟩

theorem countP_eraseP_add {α : Type} (p : α → Bool) :
    ∀ l : List α, l.any p = true → (l.eraseP p).countP p + 1 = l.countP p := by
  intro l
  induction l with
  | nil => intro h; cases h
  | cons a l ih =>
    intro h
    cases hpa : p a with
    | true => simp [List.eraseP_cons, hpa, List.countP_cons]
    | false =>
      have hl : l.any p = true := by
        rw [List.any_cons, hpa] at h
        simpa using h
      simp only [List.eraseP_cons, hpa, cond_false, List.countP_cons, if_neg]
      simp only [hpa, if_false, Bool.false_eq_true]
      simpa using ih hl

theorem countP_eraseP_not {α : Type} (p : α → Bool) :
    ∀ l : List α,
      (l.eraseP p).countP (fun a => !(p a)) = l.countP (fun a => !(p a)) := by
  intro l
  induction l with
  | nil => rfl
  | cons a l ih =>
    cases hpa : p a with
    | true => simp [List.eraseP_cons, hpa, List.countP_cons]
    | false => simp [List.eraseP_cons, hpa, List.countP_cons, ih]

/-- `get_product` reads only the product collection and its failure flag. -/
theorem get_product_store_indep {s t : Store} (pid : String)
    (h1 : s.products = t.products) (h2 : s.productReadFail = t.productReadFail) :
    get_product s pid = get_product t pid := by
  unfold get_product
  rw [h1, h2]

/-- When reads work and no product matches the looked-up identifier natively
nor by custom id, `get_product` raises exactly 404 "Product not found". -/
theorem get_product_404 (s : Store) (pid : String)
    (hdb : s.productReadFail = false)
    (hnat : ∀ p ∈ s.products, parseObjectId pid ≠ some p.oid)
    (hcust : ∀ p ∈ s.products, p.id ≠ some pid) :
    get_product s pid = Except.error { status := 404, detail := "Product not found" } := by
  unfold get_product
  rw [hdb]
  cases hp : parseObjectId pid with
  | some v =>
    have hfind : s.products.find? (fun p => p.oid == v) = none := by
      rw [List.find?_eq_none]
      intro x hx
      simp only [beq_iff_eq]
      intro hxv
      exact hnat x hx (by rw [hp, hxv])
    simp [hfind]
  | none =>
    have hfind : s.products.find? (fun p => p.id == some pid) = none := by
      rw [List.find?_eq_none]
      intro x hx
      simp only [beq_iff_eq]
      exact hcust x hx
    simp [hfind]

/-! ## Claims -/

/-- C1: For every valid order payload, order creation succeeds and persists a
single new order document whose `subtotal` is the 2-decimal rounding of
`Σ item.price × item.quantity`, whose `shipping` is the 2-decimal rounding of
the client shipping (0 when absent), and whose `total` is the 2-decimal
rounding of the (unrounded) sum `subtotal + shipping` — the recomputation
§4.5 of the spec prescribes, in which the rounding of all three values is
applied last.  The client-supplied `subtotal` and `total` do not occur in any
of these formulas: tampered values are overwritten. -/
theorem order_totals_recomputed (s : Store) (payload : Order)
    (_hv : payload.valid) :
    (create_order s payload).1 = Except.ok s.nextId ∧
    ∃ doc : OrderDoc,
      (create_order s payload).2.orders = s.orders ++ [doc] ∧
      doc.subtotal =
        round2 ((payload.items.map (fun i => i.price * (i.quantity : ℚ))).sum) ∧
      doc.shipping = round2 (payload.shipping.getD 0) ∧
      doc.total =
        round2 ((payload.items.map (fun i => i.price * (i.quantity : ℚ))).sum +
          payload.shipping.getD 0) ∧
      doc.email = payload.email ∧ doc.items = payload.items ∧
      doc.note = payload.note :=
  ⟨rfl, ⟨_, rfl, rfl, rfl, rfl, rfl, rfl, rfl⟩⟩

/-- C1 witness: on the spec's example — items 10×2 and 5×1, shipping 3, with
tampered client subtotal 999 and total 1 — the stored order has subtotal 25,
shipping 3 and total 28. -/
theorem order_totals_recomputed_witness :
    fxOrder.valid ∧
    ((create_order fxEmptyStore fxOrder).1 = Except.ok fxEmptyStore.nextId ∧
      ∃ doc : OrderDoc,
        (create_order fxEmptyStore fxOrder).2.orders =
          fxEmptyStore.orders ++ [doc] ∧
        doc.subtotal =
          round2 ((fxOrder.items.map (fun i => i.price * (i.quantity : ℚ))).sum) ∧
        doc.shipping = round2 (fxOrder.shipping.getD 0) ∧
        doc.total =
          round2 ((fxOrder.items.map (fun i => i.price * (i.quantity : ℚ))).sum +
            fxOrder.shipping.getD 0) ∧
        doc.email = fxOrder.email ∧ doc.items = fxOrder.items ∧
        doc.note = fxOrder.note) ∧
    (create_order fxEmptyStore fxOrder).2.orders =
      [{ oid := 0, email := "a@b.c", items := fxOrder.items, subtotal := 25,
         shipping := 3, total := 28, note := none }] := by
  have hv : fxOrder.valid := by
    refine ⟨?_, by norm_num [fxOrder], by norm_num [fxOrder], by norm_num [fxOrder]⟩
    intro i hi
    simp only [fxOrder, List.mem_cons, List.mem_singleton] at hi
    rcases hi with rfl | rfl | h
    · norm_num
    · norm_num
    · cases h
  refine ⟨hv, order_totals_recomputed fxEmptyStore fxOrder hv, ?_⟩
  simp only [create_order, create_document_order, fxEmptyStore, fxOrder]
  norm_num [round2, round_eq]

/-- C10: An order payload whose `items` list is empty passes validation (the
schema requires the field but sets no minimum length), and order creation
stores subtotal 0, total equal to the rounded shipping value, and the email,
items and note exactly as submitted. -/
theorem order_empty_items_accepted (s : Store) (payload : Order)
    (hitems : payload.items = [])
    (h1 : 0 ≤ payload.subtotal) (h2 : 0 ≤ payload.shipping.getD 0)
    (h3 : 0 ≤ payload.total) :
    payload.valid ∧
    (create_order s payload).1 = Except.ok s.nextId ∧
    ∃ doc : OrderDoc,
      (create_order s payload).2.orders = s.orders ++ [doc] ∧
      doc.subtotal = 0 ∧ doc.shipping = round2 (payload.shipping.getD 0) ∧
      doc.total = round2 (payload.shipping.getD 0) ∧
      doc.email = payload.email ∧ doc.items = payload.items ∧
      doc.note = payload.note := by
  refine ⟨⟨(by rw [hitems]; intro i hi; cases hi), h1, h2, h3⟩, rfl,
    ⟨_, rfl, ?_, rfl, ?_, rfl, rfl, rfl⟩⟩
  · show round2 ((payload.items.map (fun i => i.price * (i.quantity : ℚ))).sum) = 0
    rw [hitems]
    simp [round2]
  · show round2 ((payload.items.map (fun i => i.price * (i.quantity : ℚ))).sum +
      payload.shipping.getD 0) = round2 (payload.shipping.getD 0)
    rw [hitems]
    simp

/-- C10 witness: the payload with empty items and shipping 4.9 validates, and
the stored order has subtotal 0, shipping and total 4.9, and the submitted
email, (empty) items and note. -/
theorem order_empty_items_accepted_witness :
    fxOrderEmpty.items = [] ∧ 0 ≤ fxOrderEmpty.subtotal ∧
    0 ≤ fxOrderEmpty.shipping.getD 0 ∧ 0 ≤ fxOrderEmpty.total ∧
    (fxOrderEmpty.valid ∧
      (create_order fxEmptyStore fxOrderEmpty).1 = Except.ok fxEmptyStore.nextId ∧
      ∃ doc : OrderDoc,
        (create_order fxEmptyStore fxOrderEmpty).2.orders =
          fxEmptyStore.orders ++ [doc] ∧
        doc.subtotal = 0 ∧
        doc.shipping = round2 (fxOrderEmpty.shipping.getD 0) ∧
        doc.total = round2 (fxOrderEmpty.shipping.getD 0) ∧
        doc.email = fxOrderEmpty.email ∧ doc.items = fxOrderEmpty.items ∧
        doc.note = fxOrderEmpty.note) ∧
    round2 (fxOrderEmpty.shipping.getD 0) = 49/10 := by
  have e1 : fxOrderEmpty.items = [] := rfl
  have e2 : (0 : ℚ) ≤ fxOrderEmpty.subtotal := by norm_num [fxOrderEmpty]
  have e3 : (0 : ℚ) ≤ fxOrderEmpty.shipping.getD 0 := by norm_num [fxOrderEmpty]
  have e4 : (0 : ℚ) ≤ fxOrderEmpty.total := by norm_num [fxOrderEmpty]
  refine ⟨e1, e2, e3, e4,
    order_empty_items_accepted fxEmptyStore fxOrderEmpty e1 e2 e3 e4, ?_⟩
  norm_num [fxOrderEmpty, round2, round_eq]

/-- C6: Rating aggregation returns, for any product id, exactly the triple of
the product id, the 2-decimal rounding of the arithmetic mean of the rating
values present among the (at most 1000) fetched reviews of that product
(absent/null ratings skipped and not counted; average 0 when none is
counted), and the count of the counted ratings; with no reviews at all it
returns average 0 and count 0 as a success, not an error. -/
theorem rating_aggregation_mean (s : Store) (product_id : String) :
    get_product_rating s product_id =
      Except.ok (product_id,
        (if (countedRatings s product_id).length = 0 then (0 : ℚ)
         else round2 (((countedRatings s product_id).sum : ℚ) /
           ((countedRatings s product_id).length : ℚ))),
        (countedRatings s product_id).length) ∧
    (s.reviews.filter (fun d => d.product_id == product_id) = [] →
      get_product_rating s product_id = Except.ok (product_id, 0, 0)) := by
  constructor
  · rfl
  · intro h
    unfold get_product_rating get_documents
    rw [h]
    rfl

/-- C6 witness: on a store with no reviews the aggregation for "p1" returns
average 0 and count 0. -/
theorem rating_aggregation_mean_witness :
    get_product_rating fxEmptyStore "p1" =
      Except.ok ("p1",
        (if (countedRatings fxEmptyStore "p1").length = 0 then (0 : ℚ)
         else round2 (((countedRatings fxEmptyStore "p1").sum : ℚ) /
           ((countedRatings fxEmptyStore "p1").length : ℚ))),
        (countedRatings fxEmptyStore "p1").length) ∧
    (fxEmptyStore.reviews.filter (fun d => d.product_id == "p1") = [] →
      get_product_rating fxEmptyStore "p1" = Except.ok ("p1", 0, 0)) :=
  rating_aggregation_mean fxEmptyStore "p1"

/-- C5: Wishlist removal always succeeds, reporting 1 exactly when some entry
matches the (email, product_id) pair and 0 otherwise; it removes exactly that
many matching entries (at most one) and no non-matching entry; and when
nothing matches it is a no-op returning `deleted = 0` with the store
unchanged. -/
theorem wishlist_remove_at_most_one (s : Store) (email product_id : String) :
    (remove_from_wishlist s email product_id).1 =
      Except.ok (if s.wishlist.any (wishlistKey email product_id) then 1 else 0) ∧
    (if s.wishlist.any (wishlistKey email product_id) then 1 else 0) ≤ 1 ∧
    ((remove_from_wishlist s email product_id).2).wishlist.countP
        (wishlistKey email product_id) +
      (if s.wishlist.any (wishlistKey email product_id) then 1 else 0) =
      s.wishlist.countP (wishlistKey email product_id) ∧
    ((remove_from_wishlist s email product_id).2).wishlist.countP
        (fun w => !(wishlistKey email product_id w)) =
      s.wishlist.countP (fun w => !(wishlistKey email product_id w)) ∧
    (s.wishlist.any (wishlistKey email product_id) = false →
      remove_from_wishlist s email product_id = (Except.ok 0, s)) := by
  refine ⟨rfl, ?_, ?_, ?_, ?_⟩
  · split <;> simp
  · cases hany : s.wishlist.any (wishlistKey email product_id) with
    | true =>
      simpa [remove_from_wishlist, hany] using
        countP_eraseP_add (wishlistKey email product_id) s.wishlist hany
    | false =>
      have he : s.wishlist.eraseP (wishlistKey email product_id) = s.wishlist :=
        List.eraseP_of_forall_not (by simpa using List.any_eq_false.mp hany)
      simp [remove_from_wishlist, hany, he]
  · simpa [remove_from_wishlist] using
      countP_eraseP_not (wishlistKey email product_id) s.wishlist
  · intro hany
    have he : s.wishlist.eraseP (wishlistKey email product_id) = s.wishlist :=
      List.eraseP_of_forall_not (by simpa using List.any_eq_false.mp hany)
    simp [remove_from_wishlist, hany, he]

/-- C5 witness: instantiation on a store with exactly one matching wishlist
entry, and on it the reported count: deleting ("u@x.com", "p9") from
`fxWishStore` reports 1 and empties the collection. -/
theorem wishlist_remove_at_most_one_witness :
    ((remove_from_wishlist fxWishStore "u@x.com" "p9").1 =
      Except.ok
        (if fxWishStore.wishlist.any (wishlistKey "u@x.com" "p9") then 1 else 0) ∧
    (if fxWishStore.wishlist.any (wishlistKey "u@x.com" "p9") then 1 else 0) ≤ 1 ∧
    ((remove_from_wishlist fxWishStore "u@x.com" "p9").2).wishlist.countP
        (wishlistKey "u@x.com" "p9") +
      (if fxWishStore.wishlist.any (wishlistKey "u@x.com" "p9") then 1 else 0) =
      fxWishStore.wishlist.countP (wishlistKey "u@x.com" "p9") ∧
    ((remove_from_wishlist fxWishStore "u@x.com" "p9").2).wishlist.countP
        (fun w => !(wishlistKey "u@x.com" "p9" w)) =
      fxWishStore.wishlist.countP (fun w => !(wishlistKey "u@x.com" "p9" w)) ∧
    (fxWishStore.wishlist.any (wishlistKey "u@x.com" "p9") = false →
      remove_from_wishlist fxWishStore "u@x.com" "p9" = (Except.ok 0, fxWishStore))) ∧
    (remove_from_wishlist fxWishStore "u@x.com" "p9").1 = Except.ok 1 ∧
    ((remove_from_wishlist fxWishStore "u@x.com" "p9").2).wishlist = [] :=
  ⟨wishlist_remove_at_most_one fxWishStore "u@x.com" "p9", by decide, by decide⟩

/-- C7 counterexample: on a store with a product whose category is the empty
string, category listing returns a list containing the empty string — the
`isinstance(c, str)` filter keeps `""`, refuting "empty strings are
excluded" / "every returned value is a non-empty string". -/
theorem categories_empty_string_cex :
    list_categories fxCatStore = Except.ok ["", "Tops"] ∧
    ¬(∀ c ∈ ["", "Tops"], c ≠ "") :=
  ⟨by decide, by decide⟩

/-- C7 (amended): when reads work, category listing returns the
duplicate-free, ascending-sorted list of exactly the string-typed category
values occurring among the products: values of non-string type are silently
dropped, and the empty string — being a string — is included when present. -/
theorem categories_sorted_distinct (s : Store)
    (h : s.productReadFail = false) :
    ∃ cs, list_categories s = Except.ok cs ∧ cs.Nodup ∧
      List.Sorted strLeP cs ∧
      (∀ c ∈ cs, BVal.str c ∈ s.products.map (fun p => p.category)) ∧
      (∀ p ∈ s.products, ∀ c, p.category = BVal.str c → c ∈ cs) := by
  have hinj : ∀ (a a' : BVal), ∀ b ∈ strOfBVal a, b ∈ strOfBVal a' → a = a' := by
    intro a a' b hb hb'
    cases a with
    | str c =>
      cases a' with
      | str c' =>
        simp only [strOfBVal, Option.mem_def, Option.some.injEq] at hb hb'
        rw [hb, hb']
      | num _ => simp [strOfBVal] at hb'
      | null => simp [strOfBVal] at hb'
    | num _ => simp [strOfBVal] at hb
    | null => simp [strOfBVal] at hb
  refine ⟨((s.products.map (fun p => p.category)).dedup.filterMap
      strOfBVal).insertionSort strLeP, ?_, ?_, ?_, ?_, ?_⟩
  · simp [list_categories, h]
  · exact (List.perm_insertionSort strLeP _).symm.nodup
      ((List.nodup_dedup _).filterMap hinj)
  · haveI ht : IsTotal String strLeP :=
      ⟨fun a b => by
        rcases lexLe_total a.data b.data with hl | hl
        · exact Or.inl hl
        · exact Or.inr hl⟩
    haveI htr : IsTrans String strLeP :=
      ⟨fun a b c h1 h2 => lexLe_trans a.data b.data c.data h1 h2⟩
    exact List.sorted_insertionSort strLeP _
  · intro c hc
    have hm : c ∈ (s.products.map (fun p => p.category)).dedup.filterMap strOfBVal :=
      ((List.perm_insertionSort strLeP _).mem_iff).mp hc
    rcases List.mem_filterMap.mp hm with ⟨v, hv, hvc⟩
    cases v with
    | str c' =>
      have : c' = c := by simpa [strOfBVal] using hvc
      rw [← this]
      exact List.mem_dedup.mp hv
    | num _ => simp [strOfBVal] at hvc
    | null => simp [strOfBVal] at hvc
  · intro p hp c hcat
    have h1 : BVal.str c ∈ s.products.map (fun p => p.category) :=
      List.mem_map.mpr ⟨p, hp, hcat⟩
    exact ((List.perm_insertionSort strLeP _).mem_iff).mpr
      (List.mem_filterMap.mpr ⟨BVal.str c, List.mem_dedup.mpr h1, rfl⟩)

/-- C7 witness: the amended statement instantiated on `fxCatStore` (whose
categories are "", "Tops" and the number 3). -/
theorem categories_sorted_distinct_witness :
    fxCatStore.productReadFail = false ∧
    (∃ cs, list_categories fxCatStore = Except.ok cs ∧ cs.Nodup ∧
      List.Sorted strLeP cs ∧
      (∀ c ∈ cs, BVal.str c ∈ fxCatStore.products.map (fun p => p.category)) ∧
      (∀ p ∈ fxCatStore.products, ∀ c, p.category = BVal.str c → c ∈ cs)) :=
  ⟨rfl, categories_sorted_distinct fxCatStore rfl⟩

/-- C2 counterexample: with the query parameter `category=""` (an explicitly
given empty value), the filter is dropped by Python truthiness — `if
category:` — and a product whose category is "Tops" (≠ "") is returned,
refuting "category equals the given value exactly" for every given value. -/
theorem list_products_empty_param_cex :
    list_products fxStore (some "") none none none = Except.ok [fxShirtOut] ∧
    fxShirtOut.category = "Tops" ∧ ("Tops" : String) ≠ "" :=
  ⟨by decide, rfl, by decide⟩

/-- C2 (amended): when reads work, and with empty-string parameters treated
as absent (Python truthiness drops them), every product returned by listing
satisfies the conjunction of the provided non-empty filters — exact category
equality, size membership, color membership, case-insensitive substring `q`
against title or description — at most 100 products are returned, and when
no product matches the constructed filter the result is the empty list, not
an error. -/
theorem list_products_filters (s : Store)
    (category size color q : Option String)
    (h : s.productReadFail = false) :
    (∀ outs, list_products s category size color q = Except.ok outs →
      outs.length ≤ 100 ∧
      ∀ po ∈ outs, matchesParams category size color q po) ∧
    ((∀ p ∈ s.products, productMatches category size color q p = false) →
      list_products s category size color q = Except.ok []) := by
  constructor
  · intro outs houts
    unfold list_products at houts
    rw [h, if_neg Bool.false_ne_true] at houts
    match hb : buildOuts (get_documents s.products
        (productMatches category size color q) 100) with
    | Except.error e => rw [hb] at houts; simp at houts
    | Except.ok os =>
      rw [hb] at houts
      cases houts
      refine ⟨?_, ?_⟩
      · rw [buildOuts_ok_length hb]
        unfold get_documents
        exact List.length_take_le _ _
      · intro po hpo
        rcases buildOuts_ok_mem hb po hpo with ⟨p, hpl, hok⟩
        have hmem : p ∈ s.products.filter (productMatches category size color q) := by
          unfold get_documents at hpl
          exact List.mem_of_mem_take hpl
        have hpm : productMatches category size color q p = true :=
          (List.mem_filter.mp hmem).2
        obtain ⟨hid, hcat, htitle, hdesc, hsizes, hcolors⟩ :=
          toProductOut_ok_fields hok
        unfold productMatches at hpm
        rw [Bool.and_eq_true, Bool.and_eq_true, Bool.and_eq_true] at hpm
        obtain ⟨⟨⟨hA, hB⟩, hC⟩, hD⟩ := hpm
        refine ⟨?_, ?_, ?_, ?_⟩
        · intro c hc hcne
          rw [hc] at hA
          have ht : truthy (some c) = true := by simp [truthy, hcne]
          rw [ht, if_pos rfl] at hA
          have hpc : p.category = BVal.str c := eq_of_beq hA
          exact BVal.str.inj (hcat.symm.trans hpc)
        · intro sz hsz hszne
          rw [hsz] at hB
          have ht : truthy (some sz) = true := by simp [truthy, hszne]
          rw [ht, if_pos rfl] at hB
          rw [hsizes]
          exact List.elem_iff.mp hB
        · intro co hco hcone
          rw [hco] at hC
          have ht : truthy (some co) = true := by simp [truthy, hcone]
          rw [ht, if_pos rfl] at hC
          rw [hcolors]
          exact List.elem_iff.mp hC
        · intro qs hqs hqne
          rw [hqs] at hD
          have ht : truthy (some qs) = true := by simp [truthy, hqne]
          rw [ht, if_pos rfl] at hD
          rw [Bool.or_eq_true] at hD
          rcases hD with hD | hD
          · exact Or.inl (htitle ▸ hD)
          · refine Or.inr ?_
            match hdp : p.description with
            | some d =>
              rw [hdp] at hD
              exact ⟨d, by rw [hdesc, hdp], hD⟩
            | none => rw [hdp] at hD; simp at hD
  · intro hnone
    have hfil : s.products.filter (productMatches category size color q) = [] :=
      List.filter_eq_nil_iff.mpr (by intro a ha; rw [hnone a ha]; simp)
    unfold list_products
    rw [h, if_neg Bool.false_ne_true]
    unfold get_documents
    rw [hfil]
    rfl

/-- C2 witness: the amended statement instantiated on `fxStore` with the
filters `category="Tops"`, `q="tee"`. -/
theorem list_products_filters_witness :
    fxStore.productReadFail = false ∧
    ((∀ outs,
        list_products fxStore (some "Tops") none none (some "tee") =
          Except.ok outs →
        outs.length ≤ 100 ∧
        ∀ po ∈ outs, matchesParams (some "Tops") none none (some "tee") po) ∧
    ((∀ p ∈ fxStore.products,
        productMatches (some "Tops") none none (some "tee") p = false) →
      list_products fxStore (some "Tops") none none (some "tee") =
        Except.ok [])) :=
  ⟨rfl, list_products_filters fxStore (some "Tops") none none (some "tee") rfl⟩

/-- C8: product lookup parses the identifier as a native ObjectId first —
when the parse succeeds the result is 404 exactly when no product carries
that native id (no fallback to the custom field happens, even if a custom id
would match) — and only on parse failure falls back to the custom `id`
string field, where the result is 404 exactly when no product carries the
string as its custom id.  In particular an id that is no valid ObjectId and
matches no custom id yields 404. -/
theorem product_lookup_dual_strategy (s : Store) (product_id : String)
    (h : s.productReadFail = false) :
    (∀ v, parseObjectId product_id = some v →
      (get_product s product_id =
          Except.error { status := 404, detail := "Product not found" } ↔
        s.products.find? (fun p => p.oid == v) = none)) ∧
    (parseObjectId product_id = none →
      (get_product s product_id =
          Except.error { status := 404, detail := "Product not found" } ↔
        s.products.find? (fun p => p.id == some product_id) = none)) := by
  constructor
  · intro v hv
    unfold get_product
    rw [h, if_neg Bool.false_ne_true, hv]
    cases hf : s.products.find? (fun p => p.oid == v) with
    | none => simp [hf]
    | some p =>
      cases hout : toProductOut p with
      | ok out => simp [hf, hout]
      | error e => simp [hf, hout]
  · intro hv
    unfold get_product
    rw [h, if_neg Bool.false_ne_true, hv]
    cases hf : s.products.find? (fun p => p.id == some product_id) with
    | none => simp [hf]
    | some p =>
      cases hout : toProductOut p with
      | ok out => simp [hf, hout]
      | error e => simp [hf, hout]

/-- C8 witness: "xyz" is no valid ObjectId and matches no custom id in
`fxCustomStore`, so lookup yields 404; and on `fxTrapStore`, whose only
product carries the parseable string `fxTrapPid` as its *custom* id but a
different native id, looking up `fxTrapPid` still yields 404 — the fallback
is not taken when the parse succeeds. -/
theorem product_lookup_dual_strategy_witness :
    fxCustomStore.productReadFail = false ∧
    ((∀ v, parseObjectId "xyz" = some v →
      (get_product fxCustomStore "xyz" =
          Except.error { status := 404, detail := "Product not found" } ↔
        fxCustomStore.products.find? (fun p => p.oid == v) = none)) ∧
    (parseObjectId "xyz" = none →
      (get_product fxCustomStore "xyz" =
          Except.error { status := 404, detail := "Product not found" } ↔
        fxCustomStore.products.find? (fun p => p.id == some "xyz") = none))) ∧
    get_product fxCustomStore "xyz" =
      Except.error { status := 404, detail := "Product not found" } ∧
    get_product fxTrapStore fxTrapPid =
      Except.error { status := 404, detail := "Product not found" } :=
  ⟨rfl, product_lookup_dual_strategy fxCustomStore "xyz" rfl, by decide, by decide⟩

/-- C3: when reads work and the review's product id matches no product —
neither as a native ObjectId nor as a custom id string — review creation
returns exactly the 404 "Product not found" error the product lookup raises,
and the store is unchanged: no review is persisted. -/
theorem review_missing_product_404 (s : Store) (payload : Review)
    (hdb : s.productReadFail = false)
    (hnat : ∀ p ∈ s.products, parseObjectId payload.product_id ≠ some p.oid)
    (hcust : ∀ p ∈ s.products, p.id ≠ some payload.product_id) :
    get_product s payload.product_id =
      Except.error { status := 404, detail := "Product not found" } ∧
    create_review s payload =
      (Except.error { status := 404, detail := "Product not found" }, s) := by
  have hg := get_product_404 s payload.product_id hdb hnat hcust
  refine ⟨hg, ?_⟩
  unfold create_review
  rw [hg]
  rfl

/-- C3 witness: creating a review for product id "nope" against a store that
has a product (native id 5) but nothing matching "nope" returns the 404
unchanged and leaves the store as it was. -/
theorem review_missing_product_404_witness :
    fxStore.productReadFail = false ∧
    (∀ p ∈ fxStore.products,
      parseObjectId fxReviewMissing.product_id ≠ some p.oid) ∧
    (∀ p ∈ fxStore.products, p.id ≠ some fxReviewMissing.product_id) ∧
    (get_product fxStore fxReviewMissing.product_id =
        Except.error { status := 404, detail := "Product not found" } ∧
      create_review fxStore fxReviewMissing =
        (Except.error { status := 404, detail := "Product not found" }, fxStore)) :=
  ⟨rfl, by decide, by decide,
    review_missing_product_404 fxStore fxReviewMissing rfl (by decide) (by decide)⟩

/-- C4: when the referenced product exists, wishlist addition is idempotent
per (email, product_id): if an entry already exists, its identifier is
returned and nothing is inserted (the store is unchanged); and starting from
a state without the pair, adding twice returns the same fresh identifier both
times, the second call changes nothing, and exactly one entry for the pair is
stored. -/
theorem wishlist_add_idempotent (s : Store) (payload : Wishlist)
    (hprod : exceptIsOk (get_product s payload.product_id) = true) :
    (∀ w, s.wishlist.find? (wishlistKey payload.email payload.product_id) =
        some w →
      add_to_wishlist s payload = (Except.ok w.wid, s)) ∧
    (s.wishlist.find? (wishlistKey payload.email payload.product_id) = none →
      (add_to_wishlist s payload).1 = Except.ok s.nextId ∧
      ((add_to_wishlist s payload).2).wishlist.countP
        (wishlistKey payload.email payload.product_id) = 1 ∧
      add_to_wishlist ((add_to_wishlist s payload).2) payload =
        (Except.ok s.nextId, (add_to_wishlist s payload).2)) := by
  match hg : get_product s payload.product_id with
  | Except.error e => rw [hg] at hprod; simp [exceptIsOk] at hprod
  | Except.ok out =>
    constructor
    · intro w hw
      unfold add_to_wishlist
      rw [hg]
      unfold wishlistInsertStep
      rw [hw]
    · intro hn
      have hstep : add_to_wishlist s payload =
          (Except.ok s.nextId, (create_document_wishlist s payload).2) := by
        unfold add_to_wishlist
        rw [hg]
        unfold wishlistInsertStep
        rw [hn]
        rfl
      have hwl : ((create_document_wishlist s payload).2).wishlist =
          s.wishlist ++
            [{ wid := s.nextId, email := payload.email,
               product_id := payload.product_id }] := rfl
      have hkey : wishlistKey payload.email payload.product_id
          { wid := s.nextId, email := payload.email,
            product_id := payload.product_id } = true := by
        simp [wishlistKey]
      refine ⟨by rw [hstep], ?_, ?_⟩
      · rw [hstep]
        show ((create_document_wishlist s payload).2).wishlist.countP
          (wishlistKey payload.email payload.product_id) = 1
        rw [hwl, List.countP_append]
        have h0 : s.wishlist.countP
            (wishlistKey payload.email payload.product_id) = 0 :=
          List.countP_eq_zero.mpr (List.find?_eq_none.mp hn)
        rw [h0]
        simp [List.countP_cons, hkey]
      · rw [hstep]
        have hg1 : get_product ((create_document_wishlist s payload).2)
            payload.product_id = Except.ok out :=
          (get_product_store_indep payload.product_id rfl rfl).trans hg
        have hfind1 : ((create_document_wishlist s payload).2).wishlist.find?
            (wishlistKey payload.email payload.product_id) =
            some { wid := s.nextId, email := payload.email,
                   product_id := payload.product_id } := by
          rw [hwl, List.find?_append, hn]
          simp [List.find?_cons, hkey]
        unfold add_to_wishlist
        rw [hg1]
        unfold wishlistInsertStep
        rw [hfind1]

/-- C4 witness: against `fxStore` (product 5 present, wishlist empty), adding
(`"u@x.com"`, `fxPid`) twice returns identifier 9 both times. -/
theorem wishlist_add_idempotent_witness :
    exceptIsOk (get_product fxStore fxWl.product_id) = true ∧
    ((∀ w, fxStore.wishlist.find? (wishlistKey fxWl.email fxWl.product_id) =
        some w →
      add_to_wishlist fxStore fxWl = (Except.ok w.wid, fxStore)) ∧
    (fxStore.wishlist.find? (wishlistKey fxWl.email fxWl.product_id) = none →
      (add_to_wishlist fxStore fxWl).1 = Except.ok fxStore.nextId ∧
      ((add_to_wishlist fxStore fxWl).2).wishlist.countP
        (wishlistKey fxWl.email fxWl.product_id) = 1 ∧
      add_to_wishlist ((add_to_wishlist fxStore fxWl).2) fxWl =
        (Except.ok fxStore.nextId, (add_to_wishlist fxStore fxWl).2))) ∧
    (add_to_wishlist fxStore fxWl).1 = Except.ok 9 ∧
    (add_to_wishlist ((add_to_wishlist fxStore fxWl).2) fxWl).1 =
      Except.ok 9 :=
  ⟨by decide, wishlist_add_idempotent fxStore fxWl (by decide),
    by decide, by decide⟩

/-- C9 counterexample: with the product-collection read failing, the
existence check inside review creation raises a 500 `HTTPException`; the
inner `except HTTPException` re-raises only 404s, so the 500 is swallowed:
the handler proceeds, persists the review, and returns success — not a 500,
and a review document *is* persisted, refuting the claim for non-NotFound
failures of the existence check. -/
theorem review_error_suppressed_cex :
    fxFailStore.productReadFail = true ∧
    get_product fxFailStore fxReview.product_id =
      Except.error { status := 500, detail := "store error" } ∧
    (create_review fxFailStore fxReview).1 = Except.ok 0 ∧
    ((create_review fxFailStore fxReview).2).reviews =
      [{ rid := 0, product_id := "p1", rating := some 5, comment := none,
         author := none, email := none }] :=
  ⟨rfl, by decide, by decide, by decide⟩

/-- C9 (amended): in review creation and wishlist addition, a NotFound (404)
raised by the internal product existence check is re-raised unchanged and
nothing is persisted; but a non-NotFound failure of the existence check
itself (here: the product-collection read failing, surfaced by the lookup as
a 500 `HTTPException`) is suppressed rather than converted at the handler
boundary — the handler proceeds, and the review (resp. a wishlist entry for
a pair not yet present) is persisted with success returned. -/
theorem existence_check_propagation (s : Store) (rv : Review) (wl : Wishlist)
    (hnr : ∀ p ∈ s.products, parseObjectId rv.product_id ≠ some p.oid)
    (hcr : ∀ p ∈ s.products, p.id ≠ some rv.product_id)
    (hnw : ∀ p ∈ s.products, parseObjectId wl.product_id ≠ some p.oid)
    (hcw : ∀ p ∈ s.products, p.id ≠ some wl.product_id) :
    (s.productReadFail = false →
      create_review s rv =
        (Except.error { status := 404, detail := "Product not found" }, s) ∧
      add_to_wishlist s wl =
        (Except.error { status := 404, detail := "Product not found" }, s)) ∧
    (s.productReadFail = true →
      (create_review s rv).1 = Except.ok s.nextId ∧
      ((create_review s rv).2).reviews.length = s.reviews.length + 1 ∧
      (s.wishlist.find? (wishlistKey wl.email wl.product_id) = none →
        (add_to_wishlist s wl).1 = Except.ok s.nextId ∧
        ((add_to_wishlist s wl).2).wishlist.length = s.wishlist.length + 1)) := by
  constructor
  · intro hdb
    have hgr := get_product_404 s rv.product_id hdb hnr hcr
    have hgw := get_product_404 s wl.product_id hdb hnw hcw
    constructor
    · unfold create_review
      rw [hgr]
      rfl
    · unfold add_to_wishlist
      rw [hgw]
      rfl
  · intro hdb
    have hgr : get_product s rv.product_id =
        Except.error { status := 500, detail := "store error" } := by
      unfold get_product
      rw [hdb]
      rfl
    have hgw : get_product s wl.product_id =
        Except.error { status := 500, detail := "store error" } := by
      unfold get_product
      rw [hdb]
      rfl
    have hwr : add_to_wishlist s wl = wishlistInsertStep s wl := by
      unfold add_to_wishlist
      rw [hgw]
      rfl
    refine ⟨?_, ?_, ?_⟩
    · unfold create_review
      rw [hgr]
      rfl
    · unfold create_review
      rw [hgr]
      show ((create_document_review s rv).2).reviews.length =
        s.reviews.length + 1
      simp [create_document_review]
    · intro hn
      rw [hwr]
      unfold wishlistInsertStep
      rw [hn]
      exact ⟨rfl, by simp [create_document_wishlist]⟩

/-- C9 witness: instantiation on `fxStore` (reads working) with payloads
whose product id "nope" matches nothing — the 404 branch. -/
theorem existence_check_propagation_witness :
    (∀ p ∈ fxStore.products,
      parseObjectId fxReviewMissing.product_id ≠ some p.oid) ∧
    (∀ p ∈ fxStore.products, p.id ≠ some fxReviewMissing.product_id) ∧
    (∀ p ∈ fxStore.products,
      parseObjectId fxWlMissing.product_id ≠ some p.oid) ∧
    (∀ p ∈ fxStore.products, p.id ≠ some fxWlMissing.product_id) ∧
    ((fxStore.productReadFail = false →
      create_review fxStore fxReviewMissing =
        (Except.error { status := 404, detail := "Product not found" }, fxStore) ∧
      add_to_wishlist fxStore fxWlMissing =
        (Except.error { status := 404, detail := "Product not found" }, fxStore)) ∧
    (fxStore.productReadFail = true →
      (create_review fxStore fxReviewMissing).1 = Except.ok fxStore.nextId ∧
      ((create_review fxStore fxReviewMissing).2).reviews.length =
        fxStore.reviews.length + 1 ∧
      (fxStore.wishlist.find?
          (wishlistKey fxWlMissing.email fxWlMissing.product_id) = none →
        (add_to_wishlist fxStore fxWlMissing).1 = Except.ok fxStore.nextId ∧
        ((add_to_wishlist fxStore fxWlMissing).2).wishlist.length =
          fxStore.wishlist.length + 1))) :=
  ⟨by decide, by decide, by decide, by decide,
    existence_check_propagation fxStore fxReviewMissing fxWlMissing
      (by decide) (by decide) (by decide) (by decide)⟩

end Shop
